import Mathlib

/-!
Verification of the Brooklyn events aggregator ingestion pipeline.

Shallow embedding of the repository's Python modules:
  * `scrapers.py`   — geocoder, haversine distance, four source adapters,
                      `scrape_all_sources` orchestrator;
  * `database.py`   — SQLite-backed persistence (`insert_event` upsert,
                      `get_upcoming_events` query, scraping-run log);
  * `scraper_job.py` — the job entrypoint `run_scraper`;
  * `playwright_scraper.py` — the hash-based source-id synthesis.

Conventions of the embedding:
  * Python event dicts become the `Event` structure; a key an adapter never
    sets is an `Option` field holding `none` (Python `dict.get` returns
    `None` for a missing key).
  * SQLite `TEXT` comparison (BINARY collation) is modelled by the
    codepoint-wise comparator `strLe`; on the ASCII data the program stores
    this agrees with byte-wise `memcmp`.
  * SQL `NULL` semantics: an equality test against `NULL` never matches, and
    the `UNIQUE(source, source_id)` index treats `NULL` as distinct from
    everything, including another `NULL`.
  * Timestamps (`CURRENT_TIMESTAMP`) are modelled as an explicit clock value
    passed to each database operation.
  * Effects (network fetches raising, HTTP status codes, the current date)
    are modelled by an explicit `ScrapeWorld` value consumed by the
    adapters; an adapter whose request/parsing raises inside its `try`
    block is modelled by the `.raised` outcome.
  * The floating-point trigonometry of `calculate_distance` is interpreted
    over ℝ.
-/

namespace EventsAggregator

/-! ### SQLite BINARY text ordering

`database.py` stores dates as `TEXT` and compares them with `>=` / `<=` and
`ORDER BY date ASC`.  SQLite compares `TEXT` under BINARY collation, i.e.
byte-wise; on the ASCII strings the program produces this is the
codepoint-lexicographic order implemented here. -/

/-- Lexicographic (byte-wise) comparison of two character lists. -/
def strLeAux : List Char → List Char → Bool
  | [], _ => true
  | _ :: _, [] => false
  | a :: as, b :: bs =>
    if a.toNat < b.toNat then true
    else if b.toNat < a.toNat then false
    else strLeAux as bs

/-- SQLite BINARY-collation `<=` on `TEXT` values. -/
def strLe (a b : String) : Bool := strLeAux a.data b.data

/-! ### Distance calculator (`scrapers.calculate_distance`)

The Python function computes the haversine great-circle distance with
`math.radians`, `math.sin`, `math.cos`, `math.sqrt`, `math.atan2` over IEEE
doubles; the embedding interprets the same formula over ℝ. -/

/-- `math.radians`: degrees to radians. -/
noncomputable def radians (x : ℝ) : ℝ := x * (Real.pi / 180)

/-- `math.atan2 y x`, the two-argument arctangent, interpreted over ℝ with
the usual C-library quadrant conventions. -/
noncomputable def atan2 (y x : ℝ) : ℝ :=
  if 0 < x then Real.arctan (y / x)
  else if x < 0 then
    (if 0 ≤ y then Real.arctan (y / x) + Real.pi else Real.arctan (y / x) - Real.pi)
  else
    (if 0 < y then Real.pi / 2 else if y < 0 then -(Real.pi / 2) else 0)

/-- The intermediate `a` of `calculate_distance`:
`sin(delta_lat/2)**2 + cos(lat1_rad) * cos(lat2_rad) * sin(delta_lng/2)**2`. -/
noncomputable def haversine_a (lat1 lng1 lat2 lng2 : ℝ) : ℝ :=
  Real.sin (radians (lat2 - lat1) / 2) ^ 2 +
    Real.cos (radians lat1) * Real.cos (radians lat2) *
      Real.sin (radians (lng2 - lng1) / 2) ^ 2

/-- `scrapers.calculate_distance`: haversine distance in miles
(`R = 3959`; `c = 2 * atan2(sqrt(a), sqrt(1-a))`; result `R * c`). -/
noncomputable def calculate_distance (lat1 lng1 lat2 lng2 : ℝ) : ℝ :=
  3959 * (2 * atan2 (Real.sqrt (haversine_a lat1 lng1 lat2 lng2))
    (Real.sqrt (1 - haversine_a lat1 lng1 lat2 lng2)))

/-! ### Geocoder (`scrapers.geocode_location`) -/

/-- Python's `needle in haystack` substring test on character lists. -/
def hasSub (needle : List Char) : List Char → Bool
  | [] => needle.isEmpty
  | c :: rest => needle.isPrefixOf (c :: rest) || hasSub needle rest

/-- ASCII lowering of one character (`str.lower` restricted to the ASCII
range, which covers every string this program produces). -/
def lowerChar (c : Char) : Char :=
  if 65 ≤ c.toNat ∧ c.toNat ≤ 90 then Char.ofNat (c.toNat + 32) else c

/-- `location_text.lower()`. -/
def lowerStr (s : String) : String := ⟨s.data.map lowerChar⟩

/-- `PROSPECT_HEIGHTS['lat']`. -/
def PROSPECT_HEIGHTS_LAT : ℚ := 40.6782

/-- `PROSPECT_HEIGHTS['lng']`. -/
def PROSPECT_HEIGHTS_LNG : ℚ := -73.9712

/-- The `brooklyn_locations` dict of `geocode_location`, in Python's
(insertion-preserving) iteration order. -/
def brooklyn_locations : List (String × ℚ × ℚ) :=
  [("prospect park", (40.6627, -73.9700)),
   ("williamsburg", (40.7081, -73.9571)),
   ("park slope", (40.6782, -73.9840)),
   ("prospect heights", (40.6782, -73.9712)),
   ("brooklyn museum", (40.6712, -73.9642)),
   ("brooklyn children\x27s museum", (40.6694, -73.9479)),
   ("brooklyn bridge park", (40.6981, -73.9969)),
   ("red hook", (40.6773, -74.0106)),
   ("flatbush", (40.6529, -73.9497)),
   ("gowanus", (40.6779, -73.9897)),
   ("fort greene", (40.6915, -73.9759)),
   ("crown heights", (40.6697, -73.9442)),
   ("dumbo", (40.7033, -73.9878)),
   ("carroll gardens", (40.6795, -73.9996)),
   ("boerum hill", (40.6865, -73.9807))]

/-- The `for key, coords in ... : if key in location_lower: return coords`
loop of `geocode_location`, falling through to the Prospect Heights
default. -/
def lookupLoc : List (String × ℚ × ℚ) → String → ℚ × ℚ
  | [], _ => (PROSPECT_HEIGHTS_LAT, PROSPECT_HEIGHTS_LNG)
  | (k, c) :: rest, lower => if hasSub k.data lower.data then c else lookupLoc rest lower

/-- `scrapers.geocode_location`. -/
def geocode_location (location_text : String) : ℚ × ℚ :=
  lookupLoc brooklyn_locations (lowerStr location_text)

/-! ### Events and the source adapters (`scrapers.py`) -/

/-- A scraped event dict.  Fields every in-repo adapter populates are plain;
fields that may be missing or `None` are `Option` (`none` = the dict lacks
the key / holds `None`).  `etype` embeds the dict key `type`. -/
structure Event where
  title : String
  description : String
  date : Option String
  location : String
  etype : String
  url : String
  source : String
  sourceId : Option String
  latitude : Option ℚ
  longitude : Option ℚ
  distance : Option ℝ

/-- Outcome of one adapter's guarded fetch: either some statement inside the
`try` block raised (`requests` transport error, parse error, ...), or the
HTTP request completed with a status code. -/
inductive FetchOutcome where
  | raised : FetchOutcome
  | completed : Nat → FetchOutcome

/-- The environment one orchestrator run observes: one fetch outcome per
adapter, and `isoDate d` standing for
`(datetime.now() + timedelta(days=d)).isoformat()`. -/
structure ScrapeWorld where
  paper : FetchOutcome
  library : FetchOutcome
  eventbrite : FetchOutcome
  wagmag : FetchOutcome
  isoDate : Nat → String

/-- An adapter run that yields no events: the `try` block raised, or the
response status was not 200. -/
def fetchFails : FetchOutcome → Bool
  | .raised => true
  | .completed status => status != 200

/-- `scrapers.scrape_brooklyn_paper_events`. -/
def scrape_brooklyn_paper_events (w : ScrapeWorld) : List Event :=
  match w.paper with
  | .raised => []
  | .completed status =>
    if status == 200 then
      [{ title := "Brooklyn Paper Family Festival",
         description := "Community festival with activities for all ages",
         date := some (w.isoDate 5),
         location := "Prospect Park, Brooklyn, NY",
         etype := "art",
         url := "https://events.brooklynpaper.com",
         source := "Brooklyn Paper",
         sourceId := none, latitude := none, longitude := none, distance := none }]
    else []

/-- The `library_branches` list of `scrape_brooklyn_library_events`. -/
def library_branches : List String :=
  ["Central Library", "Prospect Heights Library", "Park Slope Library",
   "Fort Greene Library"]

/-- `scrapers.scrape_brooklyn_library_events`. -/
def scrape_brooklyn_library_events (w : ScrapeWorld) : List Event :=
  match w.library with
  | .raised => []
  | .completed status =>
    if status == 200 then
      library_branches.enum.map (fun p =>
        { title := "Kids Art Workshop at " ++ p.2,
          description := "Free art workshop for children aged 7-12",
          date := some (w.isoDate (2 + p.1)),
          location := p.2 ++ ", Brooklyn, NY",
          etype := "art",
          url := "https://www.bklynlibrary.org/event-series",
          source := "Brooklyn Public Library",
          sourceId := none, latitude := none, longitude := none, distance := none })
    else []

/-- `scrapers.scrape_eventbrite_music`. -/
def scrape_eventbrite_music (w : ScrapeWorld) : List Event :=
  match w.eventbrite with
  | .raised => []
  | .completed status =>
    if status == 200 then
      [{ title := "Live Jazz Night",
         description := "Local jazz musicians perform at Brooklyn venue",
         date := some (w.isoDate 3),
         location := "Brooklyn, NY",
         etype := "music",
         url := "https://www.eventbrite.com/b/ny--brooklyn/music",
         source := "Eventbrite",
         sourceId := none, latitude := none, longitude := none, distance := none },
       { title := "Indie Rock Showcase",
         description := "Brooklyn indie bands performing original music",
         date := some (w.isoDate 7),
         location := "Brooklyn, NY",
         etype := "music",
         url := "https://www.eventbrite.com/b/ny--brooklyn/music",
         source := "Eventbrite",
         sourceId := none, latitude := none, longitude := none, distance := none }]
    else []

/-- `scrapers.scrape_wagmag_art`. -/
def scrape_wagmag_art (w : ScrapeWorld) : List Event :=
  match w.wagmag with
  | .raised => []
  | .completed status =>
    if status == 200 then
      [{ title := "Contemporary Art Gallery Opening",
         description := "New exhibition featuring emerging Brooklyn artists",
         date := some (w.isoDate 2),
         location := "Williamsburg, Brooklyn, NY",
         etype := "art",
         url := "https://wagmag.org",
         source := "WAGMAG",
         sourceId := none, latitude := none, longitude := none, distance := none },
       { title := "Photography Exhibit",
         description := "Black and white street photography of Brooklyn",
         date := some (w.isoDate 6),
         location := "Red Hook, Brooklyn, NY",
         etype := "art",
         url := "https://wagmag.org",
         source := "WAGMAG",
         sourceId := none, latitude := none, longitude := none, distance := none }]
    else []

/-- The per-event annotation loop of `scrape_all_sources`:
`lat, lng = geocode_location(event['location'])` followed by
`event['distance'] = calculate_distance(PROSPECT_HEIGHTS..., lat, lng)`.
Only `distance` is written back to the dict. -/
noncomputable def addDistance (e : Event) : Event :=
  { e with distance := some (calculate_distance
      (PROSPECT_HEIGHTS_LAT : ℝ) (PROSPECT_HEIGHTS_LNG : ℝ)
      ((geocode_location e.location).1 : ℝ) ((geocode_location e.location).2 : ℝ)) }

/-- `scrapers.scrape_all_sources`: concatenation of the four adapters in
their fixed order, then the distance annotation of each event. -/
noncomputable def scrape_all_sources (w : ScrapeWorld) : List Event :=
  (scrape_brooklyn_paper_events w ++ scrape_brooklyn_library_events w ++
    scrape_eventbrite_music w ++ scrape_wagmag_art w).map addDistance

/-! ### Persistence layer (`database.py`) -/

/-- One row of the `events` table (`init_db` schema).  `NOT NULL` columns
are plain fields; nullable columns are `Option`. -/
structure Row where
  id : Nat
  title : String
  description : String
  date : String
  location : String
  latitude : Option ℚ
  longitude : Option ℚ
  distance : Option ℝ
  etype : String
  url : String
  source : String
  sourceId : Option String
  createdAt : Nat
  updatedAt : Nat

/-- The `events` table plus its `AUTOINCREMENT` counter (the next fresh
`id`). -/
structure DB where
  rows : List Row
  nextId : Nat

/-- The `WHERE source = ? AND source_id = ?` test of the UPDATE in
`insert_event`, with SQL `NULL` semantics: a `NULL` parameter or a `NULL`
stored `source_id` never matches. -/
def updMatch (e : Event) (r : Row) : Bool :=
  r.source == e.source &&
    (match r.sourceId, e.sourceId with
     | some a, some b => a == b
     | _, _ => false)

/-- Conflict of the candidate insert against a stored row under
`UNIQUE(source, source_id)`: all indexed columns non-`NULL` and equal
(SQLite treats `NULL` as distinct from everything in a unique index). -/
def uniqueClash (e : Event) (r : Row) : Bool :=
  r.source == e.source &&
    (match r.sourceId, e.sourceId with
     | some a, some b => a == b
     | _, _ => false)

/-- The SET clause of the UPDATE branch of `insert_event`: refreshes the
nine listed fields and `updated_at`; `source`, `source_id`, `id` and
`created_at` are untouched.  `d` is the (non-`NULL`) new date. -/
def applyUpdate (e : Event) (d : String) (t : Nat) (r : Row) : Row :=
  { r with
    title := e.title, description := e.description, date := d,
    location := e.location, latitude := e.latitude, longitude := e.longitude,
    distance := e.distance, etype := e.etype, url := e.url, updatedAt := t }

/-- The row created by the INSERT branch of `insert_event`:
`created_at` and `updated_at` both default to the current timestamp. -/
def mkRow (db : DB) (e : Event) (d : String) (t : Nat) : Row :=
  { id := db.nextId, title := e.title, description := e.description, date := d,
    location := e.location, latitude := e.latitude, longitude := e.longitude,
    distance := e.distance, etype := e.etype, url := e.url, source := e.source,
    sourceId := e.sourceId, createdAt := t, updatedAt := t }

/-- The table state after the UPDATE branch of `insert_event`: every row
matching the key is rewritten by the SET clause. -/
def updDB (db : DB) (e : Event) (d : String) (t : Nat) : DB :=
  { db with
    rows := db.rows.map (fun r => if updMatch e r then applyUpdate e d t r else r) }

/-- The table state after the INSERT branch of `insert_event`: the fresh row
is appended and the autoincrement counter advances. -/
def insDB (db : DB) (e : Event) (d : String) (t : Nat) : DB :=
  { rows := db.rows ++ [mkRow db e d t], nextId := db.nextId + 1 }

/-- `database.insert_event`: UPDATE by key; if no row was affected, INSERT.
Returns `cursor.lastrowid`, which sqlite3 sets only on INSERT — after a
plain UPDATE on the fresh cursor it is still `None`.  A `None` date violates
the `date TEXT NOT NULL` column; a unique-index clash aborts the INSERT.
Errors are reported as `Except.error` (a raised `sqlite3` exception). -/
def insert_event (db : DB) (e : Event) (t : Nat) : Except String (DB × Option Nat) :=
  if (db.rows.filter (updMatch e)).length != 0 then
    match e.date with
    | none => .error "NOT NULL constraint failed: events.date"
    | some d => .ok (updDB db e d t, none)
  else
    match e.date with
    | none => .error "NOT NULL constraint failed: events.date"
    | some d =>
      if db.rows.any (uniqueClash e) then
        .error "UNIQUE constraint failed: events.source, events.source_id"
      else
        .ok (insDB db e d t, some db.nextId)

/-- Python truthiness of the optional string arguments of
`get_upcoming_events` (`if min_date:` — `None` and `''` are both falsy). -/
def truthy : Option String → Bool
  | none => false
  | some s => s != ""

/-- The WHERE clause `get_upcoming_events` assembles: a `date >= min_date`
bound when `min_date` is truthy, otherwise the default
`date >= datetime("now")`; a `date <= max_date` bound and a `type = ?`
test only when those arguments are truthy. -/
def upcomingPred (minDate maxDate eventType : Option String) (now : String) (r : Row) : Bool :=
  (if truthy minDate then strLe (minDate.getD "") r.date else strLe now r.date) &&
  (if truthy maxDate then strLe r.date (maxDate.getD "") else true) &&
  (if truthy eventType then r.etype == eventType.getD "" else true)

/-- The `ORDER BY date ASC` comparison. -/
def rowDateLe (a b : Row) : Prop := strLe a.date b.date = true

instance : DecidableRel rowDateLe :=
  fun a b => inferInstanceAs (Decidable (strLe a.date b.date = true))

/-- `database.get_upcoming_events`: WHERE filter, `ORDER BY date ASC`,
`LIMIT limit`. -/
def get_upcoming_events (db : DB) (minDate maxDate eventType : Option String)
    (limit : Nat) (now : String) : List Row :=
  (((db.rows.filter (upcomingPred minDate maxDate eventType now)).insertionSort
    rowDateLe).take limit)

/-- One row of the `scraping_runs` table. -/
structure RunLog where
  source : String
  status : String
  eventsFound : Nat
  eventsAdded : Nat
  errorMessage : Option String

/-- `database.log_scraping_run`: appends one immutable run record. -/
def log_scraping_run (runs : List RunLog) (source status : String)
    (eventsFound eventsAdded : Nat) (errorMessage : Option String) : List RunLog :=
  runs ++ [⟨source, status, eventsFound, eventsAdded, errorMessage⟩]

/-! ### The scraper job (`scraper_job.py`) and Playwright id synthesis -/

/-- The id `run_scraper` synthesizes when the event dict has no
`source_id` key: the f-string `f"{title}_{date}"` (a `None` date renders as
the text `None`). -/
def synth_source_id (title : String) (date : Option String) : String :=
  title ++ "_" ++ (match date with | some d => d | none => "None")

/-- Lines 27–28 of `scraper_job.run_scraper`: add a synthesized `source_id`
when the event has none. -/
def ensure_source_id (e : Event) : Event :=
  match e.sourceId with
  | some _ => e
  | none => { e with sourceId := some (synth_source_id e.title e.date) }

/-- The per-event loop of `run_scraper` (lines 24–34): each `insert_event`
is wrapped in its own `try/except`; a raised insert is logged and skipped,
a successful one bumps `events_added`. -/
def insert_events_loop (t : Nat) : DB → List Event → DB × Nat
  | db, [] => (db, 0)
  | db, e :: rest =>
    match insert_event db (ensure_source_id e) t with
    | .ok (db2, _) =>
      let res := insert_events_loop t db2 rest
      (res.1, res.2 + 1)
    | .error _ => insert_events_loop t db rest

/-- The body of `run_scraper` after `scrape_all_sources` returned
`all_events`: run the per-event insert loop, log one `'success'` run, and
return exit status 0 (the process falls off the end of the function).  In
the model the remaining statements of the `try` block are total, so the
outer `except` branch (log a `'failed'` run, `sys.exit(1)`) is
unreachable; raised inserts are consumed by the inner per-event handler
inside `insert_events_loop`. -/
def run_scraper_on (db : DB) (runs : List RunLog) (t : Nat) (all_events : List Event) :
    DB × List RunLog × Nat :=
  let res := insert_events_loop t db all_events
  (res.1, log_scraping_run runs "all" "success" all_events.length res.2 none, 0)

/-- `scraper_job.run_scraper`: scrape everything, then persist and log. -/
noncomputable def run_scraper (w : ScrapeWorld) (db : DB) (runs : List RunLog) (t : Nat) :
    DB × List RunLog × Nat :=
  run_scraper_on db runs t (scrape_all_sources w)

/-- `playwright_scraper.scrape_eventbrite_with_playwright`'s id synthesis
`f'eventbrite_{hash(title)}'`.  Python's builtin `hash` on `str` is salted
per interpreter process (`PYTHONHASHSEED`), so it enters the model as a
parameter of the run environment rather than a fixed function. -/
def eventbrite_source_id (pyHash : String → Int) (title : String) : String :=
  "eventbrite_" ++ toString (pyHash title)

/-! ### Concrete inputs used by witnesses and counterexamples -/

/-- A run environment where every fetch succeeds with status 200. -/
def w_ok : ScrapeWorld :=
  ⟨.completed 200, .completed 200, .completed 200, .completed 200,
   fun _ => "2026-06-01T00:00:00"⟩

/-- A run environment where the Brooklyn Paper fetch raises and the other
three succeed. -/
def w_paper_down : ScrapeWorld :=
  ⟨.raised, .completed 200, .completed 200, .completed 200,
   fun _ => "2026-06-01T00:00:00"⟩

/-- The raw (pre-annotation) Brooklyn Paper sample event in `w_ok` /
`w_paper_down`. -/
def paperEvent0 : Event :=
  { title := "Brooklyn Paper Family Festival",
    description := "Community festival with activities for all ages",
    date := some "2026-06-01T00:00:00",
    location := "Prospect Park, Brooklyn, NY",
    etype := "art",
    url := "https://events.brooklynpaper.com",
    source := "Brooklyn Paper",
    sourceId := none, latitude := none, longitude := none, distance := none }

/-- The raw Central Library sample event in `w_ok` / `w_paper_down`. -/
def libEvent0 : Event :=
  { title := "Kids Art Workshop at Central Library",
    description := "Free art workshop for children aged 7-12",
    date := some "2026-06-01T00:00:00",
    location := "Central Library, Brooklyn, NY",
    etype := "art",
    url := "https://www.bklynlibrary.org/event-series",
    source := "Brooklyn Public Library",
    sourceId := none, latitude := none, longitude := none, distance := none }

/-- A well-formed event with a non-null `(source, source_id)` key. -/
def evA : Event :=
  { title := "Live Jazz Night", description := "d1",
    date := some "2026-06-04T00:00:00", location := "Brooklyn, NY",
    etype := "music", url := "u", source := "Eventbrite",
    sourceId := some "sid-1", latitude := none, longitude := none, distance := none }

/-- A second observation of `evA`'s key with changed fields. -/
def evB : Event :=
  { evA with
    title := "Live Jazz Night (updated)", description := "d2",
    date := some "2026-06-05T00:00:00" }

/-- `evA` with a null `source_id`. -/
def evNullId : Event := { evA with sourceId := none }

/-- A Playwright-style event: `date` is `None`, `source_id` is provided. -/
def evNoDate : Event :=
  { title := "Indie Show", description := "Brooklyn music event from Eventbrite",
    date := none, location := "Brooklyn, NY", etype := "music", url := "u",
    source := "Eventbrite (Playwright)", sourceId := some "eventbrite_42",
    latitude := none, longitude := none, distance := none }

/-- A stored row with key `("Eventbrite", "sid-1")` and id 1. -/
def rowC9 : Row :=
  { id := 1, title := "Live Jazz Night", description := "d1",
    date := "2026-06-04T00:00:00", location := "Brooklyn, NY",
    latitude := none, longitude := none, distance := none, etype := "music",
    url := "u", source := "Eventbrite", sourceId := some "sid-1",
    createdAt := 0, updatedAt := 0 }

/-- A one-row events table whose row is `rowC9`. -/
def dbC9 : DB := { rows := [rowC9], nextId := 2 }

/-- A stored row dated 2026-01-05. -/
def rowMay : Row :=
  { id := 1, title := "E", description := "", date := "2026-01-05T00:00:00",
    location := "L", latitude := none, longitude := none, distance := none,
    etype := "art", url := "u", source := "S", sourceId := some "x",
    createdAt := 0, updatedAt := 0 }

/-- A one-row events table whose row is `rowMay`. -/
def dbOneRow : DB := { rows := [rowMay], nextId := 2 }

/-- The empty events table. -/
def emptyDB : DB := { rows := [], nextId := 1 }

/-! ## Theorems -/

/-! ### String-order facts -/

theorem strLeAux_total (a b : List Char) : strLeAux a b = true ∨ strLeAux b a = true := by
  induction a generalizing b with
  | nil => left; rfl
  | cons x xs ih =>
    cases b with
    | nil => right; rfl
    | cons y ys =>
      simp only [strLeAux]
      rcases Nat.lt_trichotomy x.toNat y.toNat with h | h | h
      · left; simp [h]
      · have h2 : ¬ x.toNat < y.toNat := by omega
        have h3 : ¬ y.toNat < x.toNat := by omega
        simpa [h2, h3] using ih ys
      · right; simp [h]

theorem strLeAux_cons_iff (x y : Char) (xs ys : List Char) :
    strLeAux (x :: xs) (y :: ys) = true ↔
      (x.toNat < y.toNat ∨ (x.toNat = y.toNat ∧ strLeAux xs ys = true)) := by
  simp only [strLeAux]
  by_cases h1 : x.toNat < y.toNat
  · simp [h1]
  · by_cases h2 : y.toNat < x.toNat
    · simp [h1, h2]; omega
    · have h3 : x.toNat = y.toNat := by omega
      simp [h1, h2, h3]

theorem strLeAux_trans (a b c : List Char) (h1 : strLeAux a b = true)
    (h2 : strLeAux b c = true) : strLeAux a c = true := by
  induction a generalizing b c with
  | nil => rfl
  | cons x xs ih =>
    cases b with
    | nil => simp [strLeAux] at h1
    | cons y ys =>
      cases c with
      | nil => simp [strLeAux] at h2
      | cons z zs =>
        rw [strLeAux_cons_iff] at h1 h2 ⊢
        rcases h1 with h1 | ⟨h1, h1r⟩ <;> rcases h2 with h2 | ⟨h2, h2r⟩
        · left; omega
        · left; omega
        · left; omega
        · right; exact ⟨by omega, ih ys zs h1r h2r⟩

theorem strLe_total (a b : String) : strLe a b = true ∨ strLe b a = true :=
  strLeAux_total a.data b.data

theorem strLe_trans (a b c : String) (h1 : strLe a b = true) (h2 : strLe b c = true) :
    strLe a c = true :=
  strLeAux_trans a.data b.data c.data h1 h2

instance : IsTotal Row rowDateLe := ⟨fun a b => strLe_total a.date b.date⟩

instance : IsTrans Row rowDateLe := ⟨fun a b c => strLe_trans a.date b.date c.date⟩

/-! ### Geocoder facts -/

theorem lookupLoc_eq_find (l : List (String × ℚ × ℚ)) (s : String) :
    lookupLoc l s =
      ((l.find? (fun kv => hasSub kv.1.data s.data)).map (fun kv => kv.2)).getD
        (PROSPECT_HEIGHTS_LAT, PROSPECT_HEIGHTS_LNG) := by
  induction l with
  | nil => rfl
  | cons kv rest ih =>
    obtain ⟨k, c⟩ := kv
    by_cases h : hasSub k.data s.data
    · simp [lookupLoc, List.find?_cons_of_pos, h]
    · have hf : List.find? (fun kv : String × ℚ × ℚ => hasSub kv.1.data s.data)
          ((k, c) :: rest) = List.find? (fun kv => hasSub kv.1.data s.data) rest := by
        simp [List.find?_cons, h]
      rw [lookupLoc, if_neg h, hf]
      exact ih

/-! ### Distance facts -/

theorem haversine_a_symm (lat1 lng1 lat2 lng2 : ℝ) :
    haversine_a lat1 lng1 lat2 lng2 = haversine_a lat2 lng2 lat1 lng1 := by
  have hsin : ∀ u v : ℝ,
      Real.sin (radians (u - v) / 2) ^ 2 = Real.sin (radians (v - u) / 2) ^ 2 := by
    intro u v
    have h : radians (u - v) = -(radians (v - u)) := by unfold radians; ring
    rw [h, neg_div, Real.sin_neg, neg_sq]
  unfold haversine_a
  rw [hsin lat2 lat1, hsin lng2 lng1]
  ring

theorem haversine_a_self (lat lng : ℝ) : haversine_a lat lng lat lng = 0 := by
  simp [haversine_a, radians]

/-! ### Upsert key matching facts -/

theorem updMatch_iff (e : Event) (r : Row) (sid : String) (hid : e.sourceId = some sid) :
    updMatch e r = true ↔ (r.source = e.source ∧ r.sourceId = some sid) := by
  cases hr : r.sourceId with
  | none => simp [updMatch, hid, hr]
  | some a => simp [updMatch, hid, hr]

theorem updMatch_none (e : Event) (r : Row) (h : e.sourceId = none) :
    updMatch e r = false := by
  cases hr : r.sourceId <;> simp [updMatch, h, hr]

theorem uniqueClash_eq_updMatch (e : Event) (r : Row) : uniqueClash e r = updMatch e r := rfl

theorem keyBool_eq_false (r : Row) (src : String) (osid : Option String)
    (h : ¬(r.source = src ∧ r.sourceId = osid)) :
    (r.source == src && r.sourceId == osid) = false := by
  rw [Bool.eq_false_iff]
  intro hc
  exact h (by simpa [Bool.and_eq_true, beq_iff_eq] using hc)

/-! ### Claim theorems -/

/-- C7: `calculate_distance` is symmetric in its two coordinate points, and
evaluates to zero when the two points coincide. -/
theorem calculate_distance_symm_and_self_zero (lat1 lng1 lat2 lng2 : ℝ) :
    calculate_distance lat1 lng1 lat2 lng2 = calculate_distance lat2 lng2 lat1 lng1 ∧
    (lat1 = lat2 ∧ lng1 = lng2 → calculate_distance lat1 lng1 lat2 lng2 = 0) := by
  constructor
  · unfold calculate_distance
    rw [haversine_a_symm]
  · rintro ⟨rfl, rfl⟩
    unfold calculate_distance
    rw [haversine_a_self, Real.sqrt_zero, sub_zero, Real.sqrt_one]
    have h : atan2 0 1 = 0 := by
      unfold atan2
      rw [if_pos (by norm_num : (0:ℝ) < 1)]
      simp
    rw [h]; ring

/-- C7 witness: the theorem instantiated at the concrete point (1, 2). -/
theorem calculate_distance_symm_and_self_zero_witness :
    calculate_distance 1 2 1 2 = calculate_distance 1 2 1 2 ∧
    calculate_distance 1 2 1 2 = 0 :=
  ⟨(calculate_distance_symm_and_self_zero 1 2 1 2).1,
   (calculate_distance_symm_and_self_zero 1 2 1 2).2 ⟨rfl, rfl⟩⟩

/-- C6: `geocode_location` is total and deterministic (it is a pure
function); on every input it lowercases the text, scans the fixed gazetteer
in its fixed insertion order, returns the coordinates of the first entry
whose key is a substring of the lowered text, and returns the fixed anchor
(40.6782, -73.9712) when no entry matches. -/
theorem geocode_location_spec (s : String) :
    geocode_location s =
      (((brooklyn_locations.find? (fun kv => hasSub kv.1.data (lowerStr s).data)).map
        (fun kv => kv.2)).getD (40.6782, -73.9712)) ∧
    ((∀ kv ∈ brooklyn_locations, hasSub kv.1.data (lowerStr s).data = false) →
      geocode_location s = (40.6782, -73.9712)) := by
  have hbase := lookupLoc_eq_find brooklyn_locations (lowerStr s)
  constructor
  · exact hbase
  · intro h
    have hnone : brooklyn_locations.find?
        (fun kv => hasSub kv.1.data (lowerStr s).data) = none :=
      List.find?_eq_none.mpr (fun kv hkv => by simp [h kv hkv])
    unfold geocode_location
    rw [hbase, hnone]
    rfl

/-- C6 witness: a location mentioning no gazetteer key resolves to the
default anchor. -/
theorem geocode_location_spec_witness :
    brooklyn_locations.all
      (fun kv => !(hasSub kv.1.data (lowerStr "Central Library, Brooklyn, NY").data)) = true ∧
    geocode_location "Central Library, Brooklyn, NY" = (40.6782, -73.9712) :=
  ⟨by decide, (geocode_location_spec "Central Library, Brooklyn, NY").2 (by decide)⟩

/-- C8 counterexample: the Playwright adapters synthesize
`f'eventbrite_{hash(title)}'`, and Python's `hash` on `str` is salted per
interpreter process; under two different hash environments the same title
yields different ids, so the synthesized id is not a function of the title
(and date) alone across runs. -/
theorem eventbrite_source_id_seed_dependent_cx :
    eventbrite_source_id (fun _ => 0) "Live Jazz Night" ≠
      eventbrite_source_id (fun _ => 1) "Live Jazz Night" := by decide

/-- C8 amended: the id `run_scraper` itself synthesizes (the
`f"{title}_{date}"` concatenation, used for every event of
`scrape_all_sources`, none of which carries a `source_id`) is a
deterministic function of title and date, so unchanged pages merge on
repeated runs of the main pipeline; only the Playwright adapters'
hash-based ids depend on the per-process hash seed. -/
theorem synth_source_id_deterministic (e1 e2 : Event)
    (ht : e1.title = e2.title) (hd : e1.date = e2.date)
    (h1 : e1.sourceId = none) (h2 : e2.sourceId = none) :
    (ensure_source_id e1).sourceId = (ensure_source_id e2).sourceId ∧
    (ensure_source_id e1).sourceId = some (synth_source_id e1.title e1.date) := by
  constructor
  · simp [ensure_source_id, h1, h2, synth_source_id, ht, hd]
  · simp [ensure_source_id, h1]

/-- C8 witness: two observations of the same title and date (differing
elsewhere) receive the same synthesized id. -/
theorem synth_source_id_deterministic_witness :
    (ensure_source_id paperEvent0).sourceId =
      (ensure_source_id { paperEvent0 with description := "other" }).sourceId ∧
    (ensure_source_id paperEvent0).sourceId =
      some (synth_source_id paperEvent0.title paperEvent0.date) :=
  synth_source_id_deterministic _ _ rfl rfl rfl rfl

/-- C9 counterexample: calling `insert_event` for a key already stored (the
update branch) returns `none` — sqlite3's `cursor.lastrowid` is only set by
INSERT — not the id 1 of the row that was updated. -/
theorem insert_event_update_lastrowid_cx :
    insert_event dbC9 evB 5 =
      .ok ({ rows := [applyUpdate evB "2026-06-05T00:00:00" 5 rowC9], nextId := 2 }, none) ∧
    rowC9.id = 1 ∧ (applyUpdate evB "2026-06-05T00:00:00" 5 rowC9).id = 1 :=
  ⟨rfl, rfl, rfl⟩

/-- C9 amended: `insert_event` returns the fresh row's id on the insert
branch, but `None` on the update branch (the fresh cursor's `lastrowid` is
untouched by an UPDATE). -/
theorem insert_event_returned_id (db : DB) (e : Event) (d : String) (t : Nat)
    (hd : e.date = some d) :
    (db.rows.filter (updMatch e) = [] → db.rows.any (uniqueClash e) = false →
      insert_event db e t = .ok (insDB db e d t, some db.nextId)) ∧
    (db.rows.filter (updMatch e) ≠ [] →
      insert_event db e t = .ok (updDB db e d t, none)) := by
  constructor
  · intro hfil hany
    simp [insert_event, hfil, hany, hd]
  · intro hfil
    have hlen : (db.rows.filter (updMatch e)).length ≠ 0 := by
      simpa [List.length_eq_zero] using hfil
    simp [insert_event, hd, hlen]

/-- C9 witness: inserting a fresh key into the empty table returns the new
row's id. -/
theorem insert_event_returned_id_witness :
    insert_event emptyDB evA 3 =
      .ok (insDB emptyDB evA "2026-06-04T00:00:00" 3, some emptyDB.nextId) :=
  (insert_event_returned_id emptyDB evA "2026-06-04T00:00:00" 3 rfl).1 rfl rfl

/-- C10: with a null `source_id` the UPDATE's equality test never matches a
stored row and the unique index never fires (SQL `NULL` is distinct from
`NULL`), so every call takes the insert branch: two calls with the same
`source` and a null `source_id` store two rows instead of merging. -/
theorem insert_event_null_key_duplicates (db : DB) (e : Event) (d : String) (t1 t2 : Nat)
    (hsid : e.sourceId = none) (hd : e.date = some d) :
    insert_event db e t1 = .ok (insDB db e d t1, some db.nextId) ∧
    insert_event (insDB db e d t1) e t2 =
      .ok (insDB (insDB db e d t1) e d t2, some (db.nextId + 1)) ∧
    (insDB (insDB db e d t1) e d t2).rows.length = db.rows.length + 2 := by
  have hm : ∀ r, updMatch e r = false := fun r => updMatch_none e r hsid
  have hfil : ∀ rows : List Row, rows.filter (updMatch e) = [] :=
    fun rows => List.filter_eq_nil_iff.mpr (fun r _ => by simp [hm r])
  have hany : ∀ rows : List Row, rows.any (uniqueClash e) = false :=
    fun rows => List.any_eq_false.mpr (fun r _ => by simp [uniqueClash_eq_updMatch, hm r])
  refine ⟨?_, ?_, ?_⟩
  · simp [insert_event, hfil, hany, hd]
  · simp [insert_event, hfil, hany, hd, insDB]
  · simp [insDB, List.length_append]

/-- C10 witness: the duplication at a concrete event with null
`source_id`. -/
theorem insert_event_null_key_duplicates_witness :
    insert_event emptyDB evNullId 3 =
      .ok (insDB emptyDB evNullId "2026-06-04T00:00:00" 3, some emptyDB.nextId) ∧
    insert_event (insDB emptyDB evNullId "2026-06-04T00:00:00" 3) evNullId 4 =
      .ok (insDB (insDB emptyDB evNullId "2026-06-04T00:00:00" 3) evNullId
        "2026-06-04T00:00:00" 4, some (emptyDB.nextId + 1)) ∧
    (insDB (insDB emptyDB evNullId "2026-06-04T00:00:00" 3) evNullId
      "2026-06-04T00:00:00" 4).rows.length = emptyDB.rows.length + 2 :=
  insert_event_null_key_duplicates emptyDB evNullId "2026-06-04T00:00:00" 3 4 rfl rfl

/-- C1: each of the four adapters is a total function of its environment
(so the modelled exceptions never escape its boundary): it yields `[]`
whenever its fetch raised or returned a non-200 status, and each adapter's
events appear — annotated with a distance — in `scrape_all_sources`'s
output whatever the other three adapters' outcomes were. -/
theorem adapters_contained (w : ScrapeWorld) :
    (fetchFails w.paper = true → scrape_brooklyn_paper_events w = []) ∧
    (fetchFails w.library = true → scrape_brooklyn_library_events w = []) ∧
    (fetchFails w.eventbrite = true → scrape_eventbrite_music w = []) ∧
    (fetchFails w.wagmag = true → scrape_wagmag_art w = []) ∧
    (∀ e ∈ scrape_brooklyn_paper_events w, addDistance e ∈ scrape_all_sources w) ∧
    (∀ e ∈ scrape_brooklyn_library_events w, addDistance e ∈ scrape_all_sources w) ∧
    (∀ e ∈ scrape_eventbrite_music w, addDistance e ∈ scrape_all_sources w) ∧
    (∀ e ∈ scrape_wagmag_art w, addDistance e ∈ scrape_all_sources w) := by
  refine ⟨?_, ?_, ?_, ?_, ?_, ?_, ?_, ?_⟩
  · intro h
    cases hw : w.paper with
    | raised => simp [scrape_brooklyn_paper_events, hw]
    | completed s =>
      rw [hw] at h
      simp only [fetchFails, bne_iff_ne, ne_eq] at h
      simp [scrape_brooklyn_paper_events, hw, h]
  · intro h
    cases hw : w.library with
    | raised => simp [scrape_brooklyn_library_events, hw]
    | completed s =>
      rw [hw] at h
      simp only [fetchFails, bne_iff_ne, ne_eq] at h
      simp [scrape_brooklyn_library_events, hw, h]
  · intro h
    cases hw : w.eventbrite with
    | raised => simp [scrape_eventbrite_music, hw]
    | completed s =>
      rw [hw] at h
      simp only [fetchFails, bne_iff_ne, ne_eq] at h
      simp [scrape_eventbrite_music, hw, h]
  · intro h
    cases hw : w.wagmag with
    | raised => simp [scrape_wagmag_art, hw]
    | completed s =>
      rw [hw] at h
      simp only [fetchFails, bne_iff_ne, ne_eq] at h
      simp [scrape_wagmag_art, hw, h]
  · intro e he
    exact List.mem_map_of_mem addDistance (by simp [he])
  · intro e he
    exact List.mem_map_of_mem addDistance (by simp [he])
  · intro e he
    exact List.mem_map_of_mem addDistance (by simp [he])
  · intro e he
    exact List.mem_map_of_mem addDistance (by simp [he])

/-- C1 witness: with the Brooklyn Paper fetch raising and the rest
succeeding, the failing adapter contributes `[]` while a library event
still reaches the orchestrator output. -/
theorem adapters_contained_witness :
    fetchFails w_paper_down.paper = true ∧
    scrape_brooklyn_paper_events w_paper_down = [] ∧
    addDistance libEvent0 ∈ scrape_all_sources w_paper_down := by
  refine ⟨rfl, (adapters_contained w_paper_down).1 rfl, ?_⟩
  have hm : libEvent0 ∈ scrape_brooklyn_library_events w_paper_down :=
    List.Mem.head _
  exact (adapters_contained w_paper_down).2.2.2.2.2.1 libEvent0 hm

/-- C4 counterexample: in a world where every fetch succeeds, the first
event `scrape_all_sources` returns arrived from its adapter without
coordinates, and in the output its `latitude` and `longitude` are still
unset — only `distance` was populated. -/
theorem scrape_all_sources_no_coordinates_cx :
    (scrape_all_sources w_ok).head? = some (addDistance paperEvent0) ∧
    (addDistance paperEvent0).latitude = none ∧
    (addDistance paperEvent0).longitude = none ∧
    (addDistance paperEvent0).distance ≠ none := by
  refine ⟨rfl, rfl, rfl, ?_⟩
  simp [addDistance]

/-- Every raw adapter event leaves `latitude` and `longitude` unset. -/
theorem raw_events_no_coords (w : ScrapeWorld) :
    ∀ e ∈ scrape_brooklyn_paper_events w ++ scrape_brooklyn_library_events w ++
      scrape_eventbrite_music w ++ scrape_wagmag_art w,
      e.latitude = none ∧ e.longitude = none := by
  intro e he
  simp only [List.mem_append] at he
  rcases he with ((hp | hl) | he2) | hw4
  · cases hw : w.paper with
    | raised => simp [scrape_brooklyn_paper_events, hw] at hp
    | completed s =>
      by_cases hs : s == 200
      · simp [scrape_brooklyn_paper_events, hw, hs] at hp
        subst hp; exact ⟨rfl, rfl⟩
      · simp [scrape_brooklyn_paper_events, hw, hs] at hp
  · cases hw : w.library with
    | raised => simp [scrape_brooklyn_library_events, hw] at hl
    | completed s =>
      by_cases hs : s == 200
      · simp only [scrape_brooklyn_library_events, hw, hs, if_true] at hl
        obtain ⟨p, -, hpe⟩ := List.mem_map.mp hl
        subst hpe; exact ⟨rfl, rfl⟩
      · simp [scrape_brooklyn_library_events, hw, hs] at hl
  · cases hw : w.eventbrite with
    | raised => simp [scrape_eventbrite_music, hw] at he2
    | completed s =>
      by_cases hs : s == 200
      · simp [scrape_eventbrite_music, hw, hs] at he2
        rcases he2 with he2 | he2 <;> (subst he2; exact ⟨rfl, rfl⟩)
      · simp [scrape_eventbrite_music, hw, hs] at he2
  · cases hw : w.wagmag with
    | raised => simp [scrape_wagmag_art, hw] at hw4
    | completed s =>
      by_cases hs : s == 200
      · simp [scrape_wagmag_art, hw, hs] at hw4
        rcases hw4 with hw4 | hw4 <;> (subst hw4; exact ⟨rfl, rfl⟩)
      · simp [scrape_wagmag_art, hw, hs] at hw4

/-- C4 amended: every event in `scrape_all_sources`'s output has its
`distance` populated with the haversine distance from the anchor to the
geocoded coordinates of its location text, while `latitude` and `longitude`
are never populated (the annotation loop only writes `distance`). -/
theorem scrape_all_sources_distance_only (w : ScrapeWorld) (e : Event)
    (he : e ∈ scrape_all_sources w) :
    e.latitude = none ∧ e.longitude = none ∧
    e.distance = some (calculate_distance
      (PROSPECT_HEIGHTS_LAT : ℝ) (PROSPECT_HEIGHTS_LNG : ℝ)
      ((geocode_location e.location).1 : ℝ) ((geocode_location e.location).2 : ℝ)) := by
  rw [scrape_all_sources] at he
  obtain ⟨e0, h0, hee⟩ := List.mem_map.mp he
  subst hee
  have hc := raw_events_no_coords w e0 h0
  exact ⟨hc.1, hc.2, rfl⟩

/-- C4 witness: the amended theorem at the annotated Brooklyn Paper
event. -/
theorem scrape_all_sources_distance_only_witness :
    (addDistance paperEvent0).latitude = none ∧
    (addDistance paperEvent0).longitude = none ∧
    (addDistance paperEvent0).distance = some (calculate_distance
      (PROSPECT_HEIGHTS_LAT : ℝ) (PROSPECT_HEIGHTS_LNG : ℝ)
      ((geocode_location (addDistance paperEvent0).location).1 : ℝ)
      ((geocode_location (addDistance paperEvent0).location).2 : ℝ)) :=
  scrape_all_sources_distance_only w_ok (addDistance paperEvent0)
    (List.mem_map_of_mem addDistance (List.Mem.head _))

/-- C3 counterexample: an event whose insert raises a storage error (here a
`NOT NULL` violation on `date`) is consumed by the per-event handler inside
`run_scraper`'s loop: the run is still logged `'success'` with exit status
0, instead of being logged `'failed'` with a non-zero exit. -/
theorem run_scraper_swallows_insert_error_cx :
    insert_event emptyDB (ensure_source_id evNoDate) 0 =
      .error "NOT NULL constraint failed: events.date" ∧
    run_scraper_on emptyDB [] 0 [evNoDate] =
      (emptyDB, [⟨"all", "success", 1, 0, none⟩], 0) :=
  ⟨rfl, rfl⟩

/-- C3 amended: `run_scraper` never logs a failed run for `insert_event`
errors: whatever the scraped batch and however many inserts raise, the run
record is `'success'` with exit status 0, `events_added` counting only the
inserts that did not raise (at most the number of events found); the outer
failure handler is reserved for errors outside the per-event loop. -/
theorem run_scraper_logs_success (db : DB) (runs : List RunLog) (t : Nat)
    (events : List Event) :
    run_scraper_on db runs t events =
      ((insert_events_loop t db events).1,
        runs ++ [⟨"all", "success", events.length, (insert_events_loop t db events).2, none⟩],
        0) ∧
    (insert_events_loop t db events).2 ≤ events.length ∧
    (∀ w : ScrapeWorld, run_scraper w db runs t = run_scraper_on db runs t (scrape_all_sources w)) := by
  refine ⟨rfl, ?_, fun w => rfl⟩
  induction events generalizing db with
  | nil => simp [insert_events_loop]
  | cons e rest ih =>
    rw [insert_events_loop]
    cases h : insert_event db (ensure_source_id e) t with
    | ok p =>
      simpa using Nat.succ_le_succ (ih p.1)
    | error msg =>
      simpa using Nat.le_trans (ih db) (Nat.le_succ _)

/-- C2: upserting the same non-null `(source, source_id)` key twice — the
second call with different field values — leaves exactly one stored row for
that key, carrying the second call's values, with `created_at` set by the
first call and `updated_at` refreshed by the second. -/
theorem insert_event_merge (db : DB) (e1 e2 : Event) (sid d1 d2 : String) (t1 t2 : Nat)
    (hid1 : e1.sourceId = some sid)
    (hs2 : e2.source = e1.source) (hid2 : e2.sourceId = e1.sourceId)
    (hd1 : e1.date = some d1) (hd2 : e2.date = some d2)
    (hfresh : ∀ r ∈ db.rows, ¬(r.source = e1.source ∧ r.sourceId = e1.sourceId)) :
    insert_event db e1 t1 = .ok (insDB db e1 d1 t1, some db.nextId) ∧
    insert_event (insDB db e1 d1 t1) e2 t2 =
      .ok (updDB (insDB db e1 d1 t1) e2 d2 t2, none) ∧
    (updDB (insDB db e1 d1 t1) e2 d2 t2).rows.filter
        (fun r => r.source == e1.source && r.sourceId == e1.sourceId) =
      [{ id := db.nextId, title := e2.title, description := e2.description, date := d2,
         location := e2.location, latitude := e2.latitude, longitude := e2.longitude,
         distance := e2.distance, etype := e2.etype, url := e2.url, source := e1.source,
         sourceId := e1.sourceId, createdAt := t1, updatedAt := t2 }] := by
  have hid2' : e2.sourceId = some sid := hid2.trans hid1
  have hm1 : ∀ r ∈ db.rows, updMatch e1 r = false := by
    intro r hr
    rw [Bool.eq_false_iff]
    intro hmt
    obtain ⟨ha, hb⟩ := (updMatch_iff e1 r sid hid1).mp hmt
    exact hfresh r hr ⟨ha, hb.trans hid1.symm⟩
  have hm2 : ∀ r ∈ db.rows, updMatch e2 r = false := by
    intro r hr
    rw [Bool.eq_false_iff]
    intro hmt
    obtain ⟨ha, hb⟩ := (updMatch_iff e2 r sid hid2').mp hmt
    exact hfresh r hr ⟨ha.trans hs2, hb.trans hid1.symm⟩
  have hfil1 : db.rows.filter (updMatch e1) = [] :=
    List.filter_eq_nil_iff.mpr (fun r hr => by simp [hm1 r hr])
  have hany1 : db.rows.any (uniqueClash e1) = false :=
    List.any_eq_false.mpr (fun r hr => by simp [uniqueClash_eq_updMatch, hm1 r hr])
  have hc1 : insert_event db e1 t1 = .ok (insDB db e1 d1 t1, some db.nextId) := by
    simp [insert_event, hfil1, hany1, hd1]
  have hrow1 : updMatch e2 (mkRow db e1 d1 t1) = true := by
    refine (updMatch_iff e2 _ sid hid2').mpr ⟨?_, ?_⟩
    · exact hs2.symm
    · exact hid1
  have hfil2 : (insDB db e1 d1 t1).rows.filter (updMatch e2) = [mkRow db e1 d1 t1] := by
    show (db.rows ++ [mkRow db e1 d1 t1]).filter (updMatch e2) = _
    rw [List.filter_append,
      List.filter_eq_nil_iff.mpr (fun r hr => by simp [hm2 r hr])]
    simp [hrow1]
  have hc2 : insert_event (insDB db e1 d1 t1) e2 t2 =
      .ok (updDB (insDB db e1 d1 t1) e2 d2 t2, none) := by
    have hlen : ((insDB db e1 d1 t1).rows.filter (updMatch e2)).length ≠ 0 := by
      rw [hfil2]; simp
    simp [insert_event, hd2, hlen]
  have hmap : (updDB (insDB db e1 d1 t1) e2 d2 t2).rows =
      db.rows ++ [applyUpdate e2 d2 t2 (mkRow db e1 d1 t1)] := by
    show (db.rows ++ [mkRow db e1 d1 t1]).map _ = _
    rw [List.map_append]
    congr 1
    · conv_rhs => rw [← List.map_id db.rows]
      exact List.map_congr_left (fun r hr => by simp [hm2 r hr])
    · simp [hrow1]
  refine ⟨hc1, hc2, ?_⟩
  rw [hmap, List.filter_append,
    List.filter_eq_nil_iff.mpr (fun r hr => by
      simp [keyBool_eq_false r e1.source e1.sourceId (hfresh r hr)])]
  have hpred : ((applyUpdate e2 d2 t2 (mkRow db e1 d1 t1)).source == e1.source &&
      (applyUpdate e2 d2 t2 (mkRow db e1 d1 t1)).sourceId == e1.sourceId) = true := by
    show (e1.source == e1.source && e1.sourceId == e1.sourceId) = true
    simp
  simp [hpred, applyUpdate, mkRow]

/-- C2 witness: the merge at a concrete key, with the second observation
changing title, description and date. -/
theorem insert_event_merge_witness :
    insert_event emptyDB evA 10 =
      .ok (insDB emptyDB evA "2026-06-04T00:00:00" 10, some emptyDB.nextId) ∧
    insert_event (insDB emptyDB evA "2026-06-04T00:00:00" 10) evB 20 =
      .ok (updDB (insDB emptyDB evA "2026-06-04T00:00:00" 10) evB
        "2026-06-05T00:00:00" 20, none) ∧
    (updDB (insDB emptyDB evA "2026-06-04T00:00:00" 10) evB
        "2026-06-05T00:00:00" 20).rows.filter
        (fun r => r.source == evA.source && r.sourceId == evA.sourceId) =
      [{ id := emptyDB.nextId, title := evB.title, description := evB.description,
         date := "2026-06-05T00:00:00", location := evB.location, latitude := evB.latitude,
         longitude := evB.longitude, distance := evB.distance, etype := evB.etype,
         url := evB.url, source := evA.source, sourceId := evA.sourceId,
         createdAt := 10, updatedAt := 20 }] :=
  insert_event_merge emptyDB evA evB "sid-1" "2026-06-04T00:00:00" "2026-06-05T00:00:00"
    10 20 rfl rfl rfl rfl rfl (fun r hr => absurd hr (List.not_mem_nil r))

/-- C5 counterexample: `max_date = ""` is falsy in Python, so
`get_upcoming_events` applies no upper bound at all: the returned row's
date does not satisfy the claimed inclusive bound `date <= max_date`. -/
theorem get_upcoming_events_empty_bound_cx :
    get_upcoming_events dbOneRow (some "2026-01-01") (some "") none 10 "x" = [rowMay] ∧
    strLe rowMay.date "" = false :=
  ⟨rfl, rfl⟩

/-- C5 amended: for truthy (non-empty) bounds — and any `None` ones — the
query behaves as claimed: without `min_date` every returned row has
`date >= now`; a given non-empty `min_date`/`max_date` is an inclusive
bound; a given non-empty `event_type` is an equality filter; the result is
ordered ascending by date and has at most `limit` rows.  (Empty-string
arguments are treated as absent by Python truthiness.) -/
theorem get_upcoming_events_spec (db : DB) (minD maxD ety : Option String)
    (limit : Nat) (now : String)
    (hmin : minD ≠ some "") (hmax : maxD ≠ some "") (hty : ety ≠ some "") :
    (∀ r ∈ get_upcoming_events db minD maxD ety limit now,
      (minD = none → strLe now r.date = true) ∧
      (∀ m, minD = some m → strLe m r.date = true) ∧
      (∀ m, maxD = some m → strLe r.date m = true) ∧
      (∀ ty, ety = some ty → r.etype = ty)) ∧
    (get_upcoming_events db minD maxD ety limit now).Pairwise rowDateLe ∧
    (get_upcoming_events db minD maxD ety limit now).length ≤ limit := by
  refine ⟨?_, ?_, ?_⟩
  · intro r hr
    have hr1 : r ∈ (db.rows.filter (upcomingPred minD maxD ety now)).insertionSort
        rowDateLe := (List.take_sublist limit _).subset hr
    have hr2 : r ∈ db.rows.filter (upcomingPred minD maxD ety now) :=
      (List.perm_insertionSort rowDateLe _).subset hr1
    have hp : upcomingPred minD maxD ety now r = true := (List.mem_filter.mp hr2).2
    rw [upcomingPred, Bool.and_eq_true, Bool.and_eq_true] at hp
    obtain ⟨⟨h1, h2⟩, h3⟩ := hp
    refine ⟨?_, ?_, ?_, ?_⟩
    · intro hn
      rw [hn] at h1
      simpa [truthy] using h1
    · intro m hm
      rw [hm] at h1
      have hne : m ≠ "" := fun hcc => hmin (by rw [hm, hcc])
      simpa [truthy, hne] using h1
    · intro m hm
      rw [hm] at h2
      have hne : m ≠ "" := fun hcc => hmax (by rw [hm, hcc])
      simpa [truthy, hne] using h2
    · intro ty hty2
      rw [hty2] at h3
      have hne : ty ≠ "" := fun hcc => hty (by rw [hty2, hcc])
      simpa [truthy, hne] using h3
  · have hs : ((db.rows.filter (upcomingPred minD maxD ety now)).insertionSort
        rowDateLe).Pairwise rowDateLe :=
      List.sorted_insertionSort rowDateLe _
    exact hs.sublist (List.take_sublist limit _)
  · exact ((db.rows.filter (upcomingPred minD maxD ety now)).insertionSort
      rowDateLe).length_take_le limit

/-- C5 witness: the amended theorem at a concrete table and truthy
arguments. -/
theorem get_upcoming_events_spec_witness :
    strLe "2026-01-01" rowMay.date = true ∧
    strLe rowMay.date "2026-12-31" = true ∧
    rowMay.etype = "art" ∧
    (get_upcoming_events dbOneRow (some "2026-01-01") (some "2026-12-31") (some "art")
      10 "x").Pairwise rowDateLe ∧
    (get_upcoming_events dbOneRow (some "2026-01-01") (some "2026-12-31") (some "art")
      10 "x").length ≤ 10 := by
  have h := get_upcoming_events_spec dbOneRow (some "2026-01-01") (some "2026-12-31")
    (some "art") 10 "x" (by decide) (by decide) (by decide)
  have hm : rowMay ∈ get_upcoming_events dbOneRow (some "2026-01-01") (some "2026-12-31")
      (some "art") 10 "x" := List.Mem.head _
  obtain ⟨hall, hpair, hlen⟩ := h
  obtain ⟨-, h2, h3, h4⟩ := hall rowMay hm
  exact ⟨h2 _ rfl, h3 _ rfl, h4 _ rfl, hpair, hlen⟩

end EventsAggregator
